import Mathlib

/-!
Verification of the interactive crop-region editor of QueryLens
(`src/index.tsx`, class `CropManager`).

The editor's geometry lives in surface-pixel space.  JavaScript numbers are
modelled as rationals (ℚ): every operation the editor performs on coordinates
(addition, subtraction, multiplication, division by a nonzero scale, `Math.max`,
`Math.min`, `Math.abs`, comparisons) is exact on ℚ, so no floating-point
rounding is modelled.

Handlers of `CropManager` are embedded as pure state-passing functions.  The
source converts every pointer event to surface coordinates first
(`getNativePointerPosition`); the handler embeddings below take that converted
surface-space position as their pointer argument, and `getNativePointerPosition`
is embedded separately.  DOM side effects that the handlers perform are
represented by explicit state fields: the `hidden` class of the crop-box element
(`cropBoxHidden`), the `pointerdown` listener on the crop-box element
(`manipListenerOn`), and the window-level `pointermove`/`pointerup`/
`pointercancel` listeners, which the source always adds and removes together
(`windowListenersOn`).  `updateStyle` only writes CSS styles, so it is embedded
as a pure function returning the computed style values.
-/

namespace QueryLens

/-- The mutable rectangle `cropRect` of `CropManager`
(`{ x, y, width, height }`), in surface-pixel coordinates. -/
structure Rect where
  x : ℚ
  y : ℚ
  width : ℚ
  height : ℚ
deriving DecidableEq

/-- `const minSize = 30` in `CropManager.constrainCropBox`. -/
def minSize : ℚ := 30

/-- `CropManager.constrainCropBox` (src/index.tsx lines 437-459), as a function
of the canvas dimensions and the rectangle.  The source mutates `this.cropRect`
in place through five sequential statements; the embedding threads the
rectangle through the same five steps in the same order. -/
def constrainCropBox (canvasWidth canvasHeight : ℚ) (r0 : Rect) : Rect :=
  let r1 := if r0.x < 0 then { r0 with width := r0.width + r0.x, x := 0 } else r0
  let r2 := if r1.y < 0 then { r1 with height := r1.height + r1.y, y := 0 } else r1
  let r3 := if r2.x + r2.width > canvasWidth then
      { r2 with width := canvasWidth - r2.x } else r2
  let r4 := if r3.y + r3.height > canvasHeight then
      { r3 with height := canvasHeight - r3.y } else r3
  { r4 with width := max r4.width minSize, height := max r4.height minSize }

/-- Spec-side definition, following the spec's words for constraint step (1):
clamp a negative origin to 0 on each axis, shrinking the size by the (negative)
overflow so that the far edge (`origin + size`) stays fixed. -/
def specClampOrigin (r : Rect) : Rect :=
  let rx := if r.x < 0 then { r with x := 0, width := r.width + r.x } else r
  if rx.y < 0 then { rx with y := 0, height := rx.height + rx.y } else rx

/-- Spec-side definition, following the spec's words for constraint step (2):
clamp the far edge (`origin + size`) to the surface bound, shrinking size. -/
def specClampFarEdge (surfaceW surfaceH : ℚ) (r : Rect) : Rect :=
  let rx := if r.x + r.width > surfaceW then { r with width := surfaceW - r.x } else r
  if rx.y + rx.height > surfaceH then { rx with height := surfaceH - rx.y } else rx

/-- Spec-side definition, following the spec's words for constraint step (3):
enforce the minimum size on each axis by growing size up to the minimum. -/
def specMinSizeFloor (r : Rect) : Rect :=
  { r with width := max r.width minSize, height := max r.height minSize }

/-- The mutable state of `CropManager` (src/index.tsx lines 265-273), together
with the DOM-effect fields described in the module docstring.  `activeHandle`
is the `string | null` field; `startPointer` is the anchor pointer in
surface-pixel space; `startCropRect` is the anchor snapshot of the region. -/
structure CropState where
  cropRect : Rect
  activeHandle : Option String
  isManipulating : Bool
  isDrawing : Bool
  isCropDefined : Bool
  startPointer : ℚ × ℚ
  startCropRect : Rect
  cropBoxHidden : Bool
  manipListenerOn : Bool
  windowListenersOn : Bool
deriving DecidableEq

/-- State of a freshly constructed and `activate()`d `CropManager`: all fields
start at their declared initializers (zero rectangles, no handle, all mode
flags false), the crop box is hidden and no crop-box or window listeners are
registered. -/
def CropState.init : CropState :=
  { cropRect := ⟨0, 0, 0, 0⟩
    activeHandle := none
    isManipulating := false
    isDrawing := false
    isCropDefined := false
    startPointer := (0, 0)
    startCropRect := ⟨0, 0, 0, 0⟩
    cropBoxHidden := true
    manipListenerOn := false
    windowListenersOn := false }

/-- `CropManager.clear` (src/index.tsx lines 295-302): resets the mode flags
and the active handle, hides the crop box and removes its `pointerdown`
listener. -/
def clear (s : CropState) : CropState :=
  { s with isCropDefined := false
           isDrawing := false
           isManipulating := false
           activeHandle := none
           cropBoxHidden := true
           manipListenerOn := false }

/-- `CropManager.isCropped` (src/index.tsx lines 304-306). -/
def isCropped (s : CropState) : Bool :=
  s.isCropDefined

/-- `CropManager.onDrawStart` (src/index.tsx lines 339-354).  `inCropBox`
models the `(e.target as HTMLElement).closest('#crop-box')` guard; `p` is the
pointer position already converted by `getNativePointerPosition`.  Registers
the three window-level listeners. -/
def onDrawStart (inCropBox : Bool) (p : ℚ × ℚ) (s : CropState) : CropState :=
  if inCropBox then s
  else
    { clear s with
        isDrawing := true
        startPointer := p
        cropRect := ⟨p.1, p.2, 0, 0⟩
        windowListenersOn := true }

/-- `CropManager.onManipulateStart` (src/index.tsx lines 356-370).  `handle`
models `target.dataset.handle` when the target has class `crop-handle`, and
the string `"move"` otherwise.  Registers the three window-level listeners. -/
def onManipulateStart (handle : String) (p : ℚ × ℚ) (s : CropState) : CropState :=
  { s with isManipulating := true
           startPointer := p
           startCropRect := s.cropRect
           activeHandle := some handle
           windowListenersOn := true }

/-- The `move`-handle branch of `CropManager.onDrawOrManipulateMove`
(src/index.tsx lines 396-400): new origin is the anchor origin plus the
pointer delta, clamped per axis with `Math.max(0, Math.min(..))` against the
canvas size minus the current rectangle's size. -/
def moveHandleRect (cw ch : ℚ) (start r : Rect) (dx dy : ℚ) : Rect :=
  { r with x := max 0 (min (start.x + dx) (cw - r.width))
           y := max 0 (min (start.y + dy) (ch - r.height)) }

/-- The resize-handle branch of `CropManager.onDrawOrManipulateMove`
(src/index.tsx lines 401-412): four sequential `includes`-guarded updates of
the current rectangle from the anchor snapshot `start`.  The source's
`this.activeHandle.includes(c)` for a one-character needle is modelled as
`h.data.contains c` on the handle string's character list. -/
def resizeHandleRect (h : String) (start r : Rect) (dx dy : ℚ) : Rect :=
  let r1 := if h.data.contains 'e' then { r with width := start.width + dx } else r
  let r2 := if h.data.contains 'w' then
      { r1 with width := start.width - dx, x := start.x + dx } else r1
  let r3 := if h.data.contains 's' then { r2 with height := start.height + dy } else r2
  if h.data.contains 'n' then
    { r3 with height := start.height - dy, y := start.y + dy } else r3

/-- `CropManager.onDrawOrManipulateMove` (src/index.tsx lines 372-419).  `p`
is the pointer position already converted by `getNativePointerPosition`.
Mirrors the source: the drawing branch (threshold check, then axis-aligned box
spanning anchor and pointer), the manipulating branch (`move` or resize
handle), and the final constraint pass that runs whenever the crop is
defined.  (`updateStyle` writes only CSS and is embedded separately.) -/
def onDrawOrManipulateMove (cw ch : ℚ) (p : ℚ × ℚ) (s : CropState) : CropState :=
  let s1 :=
    if s.isDrawing then
      let dx := p.1 - s.startPointer.1
      let dy := p.2 - s.startPointer.2
      let s2 := if s.isCropDefined = false ∧ (5 < |dx| ∨ 5 < |dy|) then
          { s with isCropDefined := true, cropBoxHidden := false, manipListenerOn := true }
        else s
      if s2.isCropDefined then
        { s2 with cropRect := ⟨if 0 < dx then s2.startPointer.1 else p.1,
                               if 0 < dy then s2.startPointer.2 else p.2,
                               |dx|, |dy|⟩ }
      else s2
    else if s.isManipulating then
      let dx := p.1 - s.startPointer.1
      let dy := p.2 - s.startPointer.2
      match s.activeHandle with
      | some h =>
          if h = "move" then
            { s with cropRect := moveHandleRect cw ch s.startCropRect s.cropRect dx dy }
          else
            { s with cropRect := resizeHandleRect h s.startCropRect s.cropRect dx dy }
      | none => s
    else s
  if s1.isCropDefined then
    { s1 with cropRect := constrainCropBox cw ch s1.cropRect }
  else s1

/-- `CropManager.onDrawOrManipulateEnd` (src/index.tsx lines 421-435): clears
the region if a draw never crossed the threshold, resets the mode flags and
the active handle, and removes the three window-level listeners. -/
def onDrawOrManipulateEnd (s : CropState) : CropState :=
  let s1 := if s.isDrawing && !s.isCropDefined then clear s else s
  { s1 with isDrawing := false
            isManipulating := false
            activeHandle := none
            windowListenersOn := false }

/-- A pointer event as seen by the editor while it is active: a `pointerdown`
on the canvas container (with the crop-box hit test result), a `pointerdown`
on the crop-box overlay (with the resolved handle identity), or a window-level
`pointermove` / `pointerup` / `pointercancel`.  Pointer positions are already
converted to surface-pixel space. -/
inductive PEvent where
  | down (inCropBox : Bool) (p : ℚ × ℚ)
  | manipDown (handle : String) (p : ℚ × ℚ)
  | move (p : ℚ × ℚ)
  | up
  | cancel
deriving DecidableEq

/-- Event dispatch for an active editor.  A handler runs only if its listener
is currently registered: `onDrawStart` is attached to the container for the
whole active lifetime, `onManipulateStart` only while the crop-box
`pointerdown` listener is attached, and the move/up/cancel handlers only while
the window-level listeners are registered. -/
def step (cw ch : ℚ) (s : CropState) (e : PEvent) : CropState :=
  match e with
  | .down inCropBox p => onDrawStart inCropBox p s
  | .manipDown h p => if s.manipListenerOn then onManipulateStart h p s else s
  | .move p => if s.windowListenersOn then onDrawOrManipulateMove cw ch p s else s
  | .up => if s.windowListenersOn then onDrawOrManipulateEnd s else s
  | .cancel => if s.windowListenersOn then onDrawOrManipulateEnd s else s

/-- Whenever the window-level listeners are not registered, the machine is in
the Idle mode: not drawing, not manipulating, no active handle. -/
def IdleWhenReleased (s : CropState) : Prop :=
  s.windowListenersOn = false →
    s.isDrawing = false ∧ s.isManipulating = false ∧ s.activeHandle = none

/-- `CropManager.getNativePointerPosition` (src/index.tsx lines 328-337):
converts a pointer event's client (display) coordinates into surface-pixel
coordinates using the canvas's bounding client rect (`rectLeft`, `rectTop`,
`rectWidth`) and the canvas's intrinsic dimensions, clamping the result into
the surface. -/
def getNativePointerPosition (canvasW canvasH rectLeft rectTop rectWidth : ℚ)
    (clientX clientY : ℚ) : ℚ × ℚ :=
  let scale := canvasW / rectWidth
  let x := (clientX - rectLeft) * scale
  let y := (clientY - rectTop) * scale
  (max 0 (min x canvasW), max 0 (min y canvasH))

/-- `CropManager.updateStyle` (src/index.tsx lines 461-476): computes the
crop-box overlay's CSS placement — translate x, translate y, width, height in
display pixels, relative to the canvas container's bounding rect
(`containerLeft`, `containerTop`). -/
def updateStyle (canvasW rectLeft rectTop containerLeft containerTop rectWidth : ℚ)
    (r : Rect) : ℚ × ℚ × ℚ × ℚ :=
  let canvasOffsetX := rectLeft - containerLeft
  let canvasOffsetY := rectTop - containerTop
  let scale := rectWidth / canvasW
  (canvasOffsetX + r.x * scale, canvasOffsetY + r.y * scale,
    r.width * scale, r.height * scale)

/-- A raster surface: intrinsic pixel dimensions plus pixel content, sampling
the colour value at surface coordinates.  The host's drawing primitive
(`drawImage` with equal source and destination rectangle sizes, as used by
`applyCropToCanvas`) is a pixel-exact region copy, per the external-interface
contract: the pixel at destination `(i, j)` is the source pixel at
`(sx + i, sy + j)`. -/
structure Surface where
  width : ℚ
  height : ℚ
  pix : ℚ → ℚ → ℕ

/-- `CropManager.applyCropToCanvas` (src/index.tsx lines 308-326): a no-op
when `isCropped()` is false; otherwise replaces the surface with one whose
dimensions are the crop rectangle's and whose content is the source's content
inside the crop rectangle (the `drawImage` region copy described at
`Surface`). -/
def applyCropToCanvas (s : CropState) (src : Surface) : Surface :=
  if !isCropped s then src
  else
    { width := s.cropRect.width
      height := s.cropRect.height
      pix := fun i j => src.pix (s.cropRect.x + i) (s.cropRect.y + j) }

/-- A manipulation-session state with the `nw` handle engaged on anchor region
`{x:10, y:10, w:50, h:50}`, anchor pointer `(100, 100)`. -/
def nwExampleState : CropState :=
  { cropRect := ⟨10, 10, 50, 50⟩
    activeHandle := some "nw"
    isManipulating := true
    isDrawing := false
    isCropDefined := true
    startPointer := (100, 100)
    startCropRect := ⟨10, 10, 50, 50⟩
    cropBoxHidden := false
    manipListenerOn := true
    windowListenersOn := true }

/-- A manipulation-session state whose active handle carries the malformed
identity `"ew"`, on anchor region `{x:10, y:10, w:50, h:50}`, anchor pointer
`(100, 100)`. -/
def ewExampleState : CropState :=
  { cropRect := ⟨10, 10, 50, 50⟩
    activeHandle := some "ew"
    isManipulating := true
    isDrawing := false
    isCropDefined := true
    startPointer := (100, 100)
    startCropRect := ⟨10, 10, 50, 50⟩
    cropBoxHidden := false
    manipListenerOn := true
    windowListenersOn := true }

/-- A manipulation-session state whose active handle carries the malformed
identity `"q"` (containing no compass character), on anchor region
`{x:10, y:10, w:50, h:50}`, anchor pointer `(100, 100)`. -/
def qExampleState : CropState :=
  { cropRect := ⟨10, 10, 50, 50⟩
    activeHandle := some "q"
    isManipulating := true
    isDrawing := false
    isCropDefined := true
    startPointer := (100, 100)
    startCropRect := ⟨10, 10, 50, 50⟩
    cropBoxHidden := false
    manipListenerOn := true
    windowListenersOn := true }

/-- A manipulation-session state with the `move` handle engaged on anchor
region `{x:10, y:10, w:50, h:50}`, anchor pointer `(0, 0)`. -/
def moveExampleState : CropState :=
  { cropRect := ⟨10, 10, 50, 50⟩
    activeHandle := some "move"
    isManipulating := true
    isDrawing := false
    isCropDefined := true
    startPointer := (0, 0)
    startCropRect := ⟨10, 10, 50, 50⟩
    cropBoxHidden := false
    manipListenerOn := true
    windowListenersOn := true }

/-- A state holding the defined crop region `{x:0, y:0, w:40, h:40}`. -/
def crop40State : CropState :=
  { CropState.init with isCropDefined := true, cropRect := ⟨0, 0, 40, 40⟩ }

/-- A concrete 100×100 source surface. -/
def src100 : Surface :=
  { width := 100, height := 100, pix := fun i j => (i.num + j.num).natAbs }

/-- If the pre-floor size respects the bound, then after the minimum-size floor
either the bound still holds or the size was forced to the floor value. -/
theorem max_floor_bound {a b bound : ℚ} (h : a + b ≤ bound) :
    a + max b minSize ≤ bound ∨ max b minSize = minSize := by
  rcases le_total b minSize with hb | hb
  · right
    exact max_eq_right hb
  · left
    rwa [max_eq_left hb]

/-- C1: For every defined region, after constraint enforcement runs,
`origin.x ≥ 0`, `origin.y ≥ 0`, `origin.x + size.width ≤ surface.width` and
`origin.y + size.height ≤ surface.height` — except where the minimum-size
floor (30) forces the documented bound violation (formalised as: on each axis
the far edge is within the surface bound, or else that axis's size ended at
the minimum-size floor). -/
theorem constrain_bounds (cw ch : ℚ) (r : Rect) :
    0 ≤ (constrainCropBox cw ch r).x ∧ 0 ≤ (constrainCropBox cw ch r).y ∧
    ((constrainCropBox cw ch r).x + (constrainCropBox cw ch r).width ≤ cw ∨
      (constrainCropBox cw ch r).width = minSize) ∧
    ((constrainCropBox cw ch r).y + (constrainCropBox cw ch r).height ≤ ch ∨
      (constrainCropBox cw ch r).height = minSize) := by
  rcases r with ⟨x, y, w, h⟩
  unfold constrainCropBox
  simp only [apply_ite Rect.x, apply_ite Rect.y, apply_ite Rect.width,
    apply_ite Rect.height]
  split_ifs <;>
    exact ⟨by push_neg at *; linarith, by push_neg at *; linarith,
      max_floor_bound (by push_neg at *; linarith),
      max_floor_bound (by push_neg at *; linarith)⟩

/-- C2: The constraint enforcer applies exactly these steps in this order to a
region: (1) clamp a negative origin to 0 on each axis, shrinking the size by
the overflow so the far edge (`origin + size`) stays fixed; (2) clamp the far
edge to the surface bound by shrinking size; (3) enforce the minimum size (30)
on each axis by growing size up to the minimum; and shrink-to-bounds happens
before minimum-size enforcement.  The conjuncts state: the enforcer is exactly
the ordered pipeline of the three spec steps; step (1) keeps the far edge
fixed while clamping a negative origin to 0; step (2) always leaves the far
edge within the surface bound; step (3) makes each axis's size at least the
minimum. -/
theorem constrain_is_spec_pipeline (cw ch : ℚ) (r : Rect) :
    constrainCropBox cw ch r =
      specMinSizeFloor (specClampFarEdge cw ch (specClampOrigin r)) ∧
    (r.x < 0 → (specClampOrigin r).x = 0 ∧
      (specClampOrigin r).x + (specClampOrigin r).width = r.x + r.width) ∧
    (r.y < 0 → (specClampOrigin r).y = 0 ∧
      (specClampOrigin r).y + (specClampOrigin r).height = r.y + r.height) ∧
    (specClampFarEdge cw ch r).x + (specClampFarEdge cw ch r).width ≤ cw ∧
    (specClampFarEdge cw ch r).y + (specClampFarEdge cw ch r).height ≤ ch ∧
    minSize ≤ (specMinSizeFloor r).width ∧ minSize ≤ (specMinSizeFloor r).height := by
  rcases r with ⟨x, y, w, h⟩
  refine ⟨rfl, ?_, ?_, ?_, ?_, le_max_right _ _, le_max_right _ _⟩
  · intro hx
    unfold specClampOrigin
    simp only [apply_ite Rect.x, apply_ite Rect.y, apply_ite Rect.width,
      apply_ite Rect.height]
    split_ifs <;> constructor <;> first | rfl | ring
  · intro hy
    unfold specClampOrigin
    simp only [apply_ite Rect.x, apply_ite Rect.y, apply_ite Rect.width,
      apply_ite Rect.height]
    split_ifs <;> constructor <;> first | rfl | ring
  · unfold specClampFarEdge
    simp only [apply_ite Rect.x, apply_ite Rect.y, apply_ite Rect.width,
      apply_ite Rect.height]
    split_ifs <;> push_neg at * <;> linarith
  · unfold specClampFarEdge
    simp only [apply_ite Rect.x, apply_ite Rect.y, apply_ite Rect.width,
      apply_ite Rect.height]
    split_ifs <;> push_neg at * <;> linarith

/-- Witness for `constrain_is_spec_pipeline` at a concrete off-surface
rectangle. -/
theorem constrain_is_spec_pipeline_witness :
    constrainCropBox 100 100 ⟨-5, 3, 40, 50⟩ =
      specMinSizeFloor (specClampFarEdge 100 100 (specClampOrigin ⟨-5, 3, 40, 50⟩)) ∧
    ((-5 : ℚ) < 0 → (specClampOrigin ⟨-5, 3, 40, 50⟩).x = 0 ∧
      (specClampOrigin ⟨-5, 3, 40, 50⟩).x + (specClampOrigin ⟨-5, 3, 40, 50⟩).width
        = -5 + 40) := by
  have h := constrain_is_spec_pipeline 100 100 ⟨-5, 3, 40, 50⟩
  exact ⟨h.1, h.2.1⟩

/-- The move handler touches neither the mode flags nor the listener
registrations. -/
theorem move_preserves_mode (cw ch : ℚ) (p : ℚ × ℚ) (s : CropState) :
    (onDrawOrManipulateMove cw ch p s).windowListenersOn = s.windowListenersOn ∧
    (onDrawOrManipulateMove cw ch p s).isDrawing = s.isDrawing ∧
    (onDrawOrManipulateMove cw ch p s).isManipulating = s.isManipulating ∧
    (onDrawOrManipulateMove cw ch p s).activeHandle = s.activeHandle := by
  rcases s with ⟨cr, ah, im, idr, icd, sp, scr, cbh, ml, wl⟩
  cases ah <;>
    simp [onDrawOrManipulateMove, apply_ite CropState.windowListenersOn,
      apply_ite CropState.isDrawing, apply_ite CropState.isManipulating,
      apply_ite CropState.activeHandle]

/-- `IdleWhenReleased` is preserved by every dispatched pointer event. -/
theorem step_preserves_idleWhenReleased (cw ch : ℚ) (s : CropState) (e : PEvent)
    (hs : IdleWhenReleased s) : IdleWhenReleased (step cw ch s e) := by
  cases e with
  | down inCropBox p =>
      by_cases hB : inCropBox = true
      · simpa [step, onDrawStart, hB] using hs
      · simp [step, onDrawStart, hB, IdleWhenReleased]
  | manipDown h p =>
      cases hM : s.manipListenerOn
      · simpa [step, hM] using hs
      · simp [step, hM, onManipulateStart, IdleWhenReleased]
  | move p =>
      cases hW : s.windowListenersOn
      · simpa [step, hW] using hs
      · intro hcontra
        obtain ⟨h1, -, -, -⟩ := move_preserves_mode cw ch p s
        rw [step] at hcontra ⊢
        simp only [hW, if_true] at hcontra ⊢
        rw [h1, hW] at hcontra
        exact absurd hcontra (by simp)
  | up =>
      cases hW : s.windowListenersOn
      · simpa [step, hW] using hs
      · simp [step, hW, onDrawOrManipulateEnd, IdleWhenReleased]
  | cancel =>
      cases hW : s.windowListenersOn
      · simpa [step, hW] using hs
      · simp [step, hW, onDrawOrManipulateEnd, IdleWhenReleased]

/-- `IdleWhenReleased` holds along any event trace from the activated state. -/
theorem foldl_idleWhenReleased (cw ch : ℚ) (es : List PEvent) (s : CropState)
    (hs : IdleWhenReleased s) : IdleWhenReleased (es.foldl (step cw ch) s) := by
  induction es generalizing s with
  | nil => exact hs
  | cons e es ih =>
      exact ih _ (step_preserves_idleWhenReleased cw ch s e hs)

/-- C8: For every sequence of pointer events (including out-of-order sequences
and sequences ending in `pointercancel` instead of `pointerup`), after any
`pointerup` or `pointercancel` event is handled the machine is in the Idle
mode — neither drawing nor manipulating, no active handle — and no
window-level `pointermove`/`pointerup`/`pointercancel` listeners remain
registered. -/
theorem pointer_up_returns_idle (cw ch : ℚ) (es : List PEvent) (e : PEvent)
    (he : e = PEvent.up ∨ e = PEvent.cancel) :
    ((es ++ [e]).foldl (step cw ch) CropState.init).isDrawing = false ∧
    ((es ++ [e]).foldl (step cw ch) CropState.init).isManipulating = false ∧
    ((es ++ [e]).foldl (step cw ch) CropState.init).activeHandle = none ∧
    ((es ++ [e]).foldl (step cw ch) CropState.init).windowListenersOn = false := by
  rw [List.foldl_append]
  have hs : IdleWhenReleased (es.foldl (step cw ch) CropState.init) :=
    foldl_idleWhenReleased cw ch es CropState.init (fun _ => ⟨rfl, rfl, rfl⟩)
  set s := es.foldl (step cw ch) CropState.init with hdef
  rcases he with rfl | rfl <;>
  · cases hW : s.windowListenersOn
    · obtain ⟨h1, h2, h3⟩ := hs hW
      simp [step, hW, h1, h2, h3]
    · simp [step, hW, onDrawOrManipulateEnd]

/-- Witness for `pointer_up_returns_idle`: the empty trace followed by a
`pointerup`. -/
theorem pointer_up_returns_idle_witness :
    ((([] : List PEvent) ++ [PEvent.up]).foldl (step 100 100) CropState.init).isDrawing
        = false ∧
    ((([] : List PEvent) ++ [PEvent.up]).foldl (step 100 100) CropState.init).isManipulating
        = false ∧
    ((([] : List PEvent) ++ [PEvent.up]).foldl (step 100 100) CropState.init).activeHandle
        = none ∧
    ((([] : List PEvent) ++ [PEvent.up]).foldl (step 100 100) CropState.init).windowListenersOn
        = false :=
  pointer_up_returns_idle 100 100 [] PEvent.up (Or.inl rfl)

/-- A pointer-move whose displacement from the anchor is at most 5 surface
pixels on both axes leaves a drawing, not-yet-defined session state entirely
unchanged. -/
theorem small_move_id (cw ch : ℚ) (p : ℚ × ℚ) (s : CropState)
    (hD : s.isDrawing = true) (hC : s.isCropDefined = false)
    (h1 : |p.1 - s.startPointer.1| ≤ 5) (h2 : |p.2 - s.startPointer.2| ≤ 5) :
    onDrawOrManipulateMove cw ch p s = s := by
  unfold onDrawOrManipulateMove
  simp [hD, hC, not_lt.mpr h1, not_lt.mpr h2]

/-- A whole run of small-displacement pointer-moves leaves a drawing,
not-yet-defined session state unchanged. -/
theorem foldl_small_moves (cw ch : ℚ) (s : CropState)
    (hD : s.isDrawing = true) (hC : s.isCropDefined = false)
    (ps : List (ℚ × ℚ))
    (hps : ∀ p ∈ ps, |p.1 - s.startPointer.1| ≤ 5 ∧ |p.2 - s.startPointer.2| ≤ 5) :
    ps.foldl (fun t q => onDrawOrManipulateMove cw ch q t) s = s := by
  induction ps with
  | nil => rfl
  | cons q qs ih =>
      have hq := hps q (List.mem_cons_self q qs)
      simp only [List.foldl_cons]
      rw [small_move_id cw ch q s hD hC hq.1 hq.2]
      exact ih (fun p hp => hps p (List.mem_cons_of_mem q hp))

/-- C3: For every drawing session in which every pointer-move position stays
within displacement ≤ 5 surface pixels of the anchor on both axes, the region
never becomes defined — `isCropDefined` stays false after every prefix of the
moves — and on pointer-up or pointer-cancel (both run the same
`onDrawOrManipulateEnd` handler) the session ends with the cleared, no-region
state restored and the window listeners released. -/
theorem tap_never_defines (cw ch : ℚ) (sPrev : CropState) (p0 : ℚ × ℚ)
    (ps : List (ℚ × ℚ)) (k : ℕ)
    (hps : ∀ p ∈ ps, |p.1 - p0.1| ≤ 5 ∧ |p.2 - p0.2| ≤ 5) :
    (((ps.take k).foldl (fun t q => onDrawOrManipulateMove cw ch q t)
        (onDrawStart false p0 sPrev)).isCropDefined = false) ∧
    ((onDrawOrManipulateEnd (ps.foldl (fun t q => onDrawOrManipulateMove cw ch q t)
        (onDrawStart false p0 sPrev))).isCropDefined = false ∧
      (onDrawOrManipulateEnd (ps.foldl (fun t q => onDrawOrManipulateMove cw ch q t)
        (onDrawStart false p0 sPrev))).isDrawing = false ∧
      (onDrawOrManipulateEnd (ps.foldl (fun t q => onDrawOrManipulateMove cw ch q t)
        (onDrawStart false p0 sPrev))).isManipulating = false ∧
      (onDrawOrManipulateEnd (ps.foldl (fun t q => onDrawOrManipulateMove cw ch q t)
        (onDrawStart false p0 sPrev))).activeHandle = none ∧
      (onDrawOrManipulateEnd (ps.foldl (fun t q => onDrawOrManipulateMove cw ch q t)
        (onDrawStart false p0 sPrev))).cropBoxHidden = true ∧
      (onDrawOrManipulateEnd (ps.foldl (fun t q => onDrawOrManipulateMove cw ch q t)
        (onDrawStart false p0 sPrev))).manipListenerOn = false ∧
      (onDrawOrManipulateEnd (ps.foldl (fun t q => onDrawOrManipulateMove cw ch q t)
        (onDrawStart false p0 sPrev))).windowListenersOn = false) := by
  set s0 := onDrawStart false p0 sPrev with hs0
  have hD : s0.isDrawing = true := rfl
  have hC : s0.isCropDefined = false := rfl
  have hSP : s0.startPointer = p0 := rfl
  have htake : (ps.take k).foldl (fun t q => onDrawOrManipulateMove cw ch q t) s0 = s0 :=
    foldl_small_moves cw ch s0 hD hC (ps.take k)
      (fun p hp => by rw [hSP]; exact hps p (List.take_subset k ps hp))
  have hall : ps.foldl (fun t q => onDrawOrManipulateMove cw ch q t) s0 = s0 :=
    foldl_small_moves cw ch s0 hD hC ps (fun p hp => by rw [hSP]; exact hps p hp)
  rw [htake, hall]
  exact ⟨hC, rfl, rfl, rfl, rfl, rfl, rfl, rfl⟩

/-- Witness for `tap_never_defines`: a two-move tap whose displacements stay
within the 5-pixel threshold. -/
theorem tap_never_defines_witness :
    ((([((53 : ℚ), (52 : ℚ)), (47, 55)].take 1).foldl
        (fun t q => onDrawOrManipulateMove 100 100 q t)
        (onDrawStart false (50, 50) CropState.init)).isCropDefined = false) ∧
    ((onDrawOrManipulateEnd ([((53 : ℚ), (52 : ℚ)), (47, 55)].foldl
        (fun t q => onDrawOrManipulateMove 100 100 q t)
        (onDrawStart false (50, 50) CropState.init))).isCropDefined = false ∧
      (onDrawOrManipulateEnd ([((53 : ℚ), (52 : ℚ)), (47, 55)].foldl
        (fun t q => onDrawOrManipulateMove 100 100 q t)
        (onDrawStart false (50, 50) CropState.init))).isDrawing = false ∧
      (onDrawOrManipulateEnd ([((53 : ℚ), (52 : ℚ)), (47, 55)].foldl
        (fun t q => onDrawOrManipulateMove 100 100 q t)
        (onDrawStart false (50, 50) CropState.init))).isManipulating = false ∧
      (onDrawOrManipulateEnd ([((53 : ℚ), (52 : ℚ)), (47, 55)].foldl
        (fun t q => onDrawOrManipulateMove 100 100 q t)
        (onDrawStart false (50, 50) CropState.init))).activeHandle = none ∧
      (onDrawOrManipulateEnd ([((53 : ℚ), (52 : ℚ)), (47, 55)].foldl
        (fun t q => onDrawOrManipulateMove 100 100 q t)
        (onDrawStart false (50, 50) CropState.init))).cropBoxHidden = true ∧
      (onDrawOrManipulateEnd ([((53 : ℚ), (52 : ℚ)), (47, 55)].foldl
        (fun t q => onDrawOrManipulateMove 100 100 q t)
        (onDrawStart false (50, 50) CropState.init))).manipListenerOn = false ∧
      (onDrawOrManipulateEnd ([((53 : ℚ), (52 : ℚ)), (47, 55)].foldl
        (fun t q => onDrawOrManipulateMove 100 100 q t)
        (onDrawStart false (50, 50) CropState.init))).windowListenersOn = false) :=
  tap_never_defines 100 100 CropState.init (50, 50) [(53, 52), (47, 55)] 1
    (by intro p hp; fin_cases hp <;> exact ⟨by norm_num, by norm_num⟩)

/-- The constraint pass never moves an origin that is already
non-negative. -/
theorem constrain_keeps_nonneg_origin (cw ch : ℚ) (r : Rect)
    (hx : 0 ≤ r.x) (hy : 0 ≤ r.y) :
    (constrainCropBox cw ch r).x = r.x ∧ (constrainCropBox cw ch r).y = r.y := by
  constructor <;>
    simp [constrainCropBox, not_lt.mpr hx, not_lt.mpr hy,
      apply_ite Rect.x, apply_ite Rect.y]

/-- A rectangle already satisfying all the constraints is a fixed point of the
constraint pass. -/
theorem constrain_fixed (cw ch : ℚ) (r : Rect)
    (hx : 0 ≤ r.x) (hy : 0 ≤ r.y)
    (hxw : r.x + r.width ≤ cw) (hyh : r.y + r.height ≤ ch)
    (hw : minSize ≤ r.width) (hh : minSize ≤ r.height) :
    constrainCropBox cw ch r = r := by
  simp [constrainCropBox, not_lt.mpr hx, not_lt.mpr hy, not_lt.mpr hxw,
    not_lt.mpr hyh, max_eq_left hw, max_eq_left hh]

/-- In a manipulation state, the move handler routes the rectangle through the
active handle's delta rule and, when the crop is defined, the constraint
pass. -/
theorem move_rect_routing (cw ch : ℚ) (p : ℚ × ℚ) (s : CropState) (h : String)
    (hD : s.isDrawing = false) (hM : s.isManipulating = true)
    (hH : s.activeHandle = some h) :
    (onDrawOrManipulateMove cw ch p s).cropRect =
      (if s.isCropDefined = true then
        constrainCropBox cw ch
          ((if h = "move" then
              moveHandleRect cw ch s.startCropRect s.cropRect
                (p.1 - s.startPointer.1) (p.2 - s.startPointer.2)
            else
              resizeHandleRect h s.startCropRect s.cropRect
                (p.1 - s.startPointer.1) (p.2 - s.startPointer.2)))
      else
        (if h = "move" then
            moveHandleRect cw ch s.startCropRect s.cropRect
              (p.1 - s.startPointer.1) (p.2 - s.startPointer.2)
          else
            resizeHandleRect h s.startCropRect s.cropRect
              (p.1 - s.startPointer.1) (p.2 - s.startPointer.2))) := by
  by_cases hmv : h = "move" <;>
    simp [onDrawOrManipulateMove, hD, hM, hH, hmv, apply_ite CropState.cropRect]

/-- C5: For every manipulation session with the `move` handle, the new origin
equals the anchor origin plus the pointer delta, with each axis independently
clamped to the interval `[0, surfaceSize − regionSize]` (the interval is
nonempty because the region fits in the surface). -/
theorem move_handle_clamps (cw ch : ℚ) (p : ℚ × ℚ) (s : CropState)
    (hD : s.isDrawing = false) (hM : s.isManipulating = true)
    (hH : s.activeHandle = some "move")
    (hw : s.cropRect.width ≤ cw) (hh : s.cropRect.height ≤ ch) :
    (onDrawOrManipulateMove cw ch p s).cropRect.x
        = max 0 (min (s.startCropRect.x + (p.1 - s.startPointer.1))
            (cw - s.cropRect.width)) ∧
    (onDrawOrManipulateMove cw ch p s).cropRect.y
        = max 0 (min (s.startCropRect.y + (p.2 - s.startPointer.2))
            (ch - s.cropRect.height)) ∧
    0 ≤ (onDrawOrManipulateMove cw ch p s).cropRect.x ∧
    (onDrawOrManipulateMove cw ch p s).cropRect.x ≤ cw - s.cropRect.width ∧
    0 ≤ (onDrawOrManipulateMove cw ch p s).cropRect.y ∧
    (onDrawOrManipulateMove cw ch p s).cropRect.y ≤ ch - s.cropRect.height := by
  have hroute := move_rect_routing cw ch p s "move" hD hM hH
  rw [if_pos rfl] at hroute
  set mr := moveHandleRect cw ch s.startCropRect s.cropRect
    (p.1 - s.startPointer.1) (p.2 - s.startPointer.2) with hmr
  have hmx : mr.x = max 0 (min (s.startCropRect.x + (p.1 - s.startPointer.1))
      (cw - s.cropRect.width)) := rfl
  have hmy : mr.y = max 0 (min (s.startCropRect.y + (p.2 - s.startPointer.2))
      (ch - s.cropRect.height)) := rfl
  have h0x : 0 ≤ mr.x := by rw [hmx]; exact le_max_left 0 _
  have h0y : 0 ≤ mr.y := by rw [hmy]; exact le_max_left 0 _
  have hbx : mr.x ≤ cw - s.cropRect.width := by
    rw [hmx]; exact max_le (by linarith) (min_le_right _ _)
  have hby : mr.y ≤ ch - s.cropRect.height := by
    rw [hmy]; exact max_le (by linarith) (min_le_right _ _)
  have hx_eq : (onDrawOrManipulateMove cw ch p s).cropRect.x = mr.x := by
    rw [hroute]
    cases hC : s.isCropDefined
    · simp [hC]
    · simp [hC, (constrain_keeps_nonneg_origin cw ch mr h0x h0y).1]
  have hy_eq : (onDrawOrManipulateMove cw ch p s).cropRect.y = mr.y := by
    rw [hroute]
    cases hC : s.isCropDefined
    · simp [hC]
    · simp [hC, (constrain_keeps_nonneg_origin cw ch mr h0x h0y).2]
  exact ⟨by rw [hx_eq, hmx], by rw [hy_eq, hmy],
    by rw [hx_eq]; exact h0x, by rw [hx_eq]; exact hbx,
    by rw [hy_eq]; exact h0y, by rw [hy_eq]; exact hby⟩

/-- Witness for `move_handle_clamps`: anchor region `{x:10, y:10, w:50, h:50}`
on a 200×200 surface with pointer delta `dx = 300, dy = 0` yields origin
`(150, 10)` — clamped to `surface.width − width`. -/
theorem move_handle_clamps_witness :
    (onDrawOrManipulateMove 200 200 (300, 0) moveExampleState).cropRect.x = 150 ∧
    (onDrawOrManipulateMove 200 200 (300, 0) moveExampleState).cropRect.y = 10 := by
  have h := move_handle_clamps 200 200 (300, 0) moveExampleState rfl rfl rfl
    (by norm_num [moveExampleState]) (by norm_num [moveExampleState])
  refine ⟨?_, ?_⟩
  · rw [h.1]; norm_num [moveExampleState]
  · rw [h.2.1]; norm_num [moveExampleState]

/-- C10: For every manipulation pointer-move with the `move` handle, provided
the region fits in the surface (each axis's size at least the minimum 30 and
at most the surface size), the handler together with the subsequent constraint
pass changes only the region's origin: its width and height are exactly the
same after the event as before. -/
theorem move_preserves_size (cw ch : ℚ) (p : ℚ × ℚ) (s : CropState)
    (hD : s.isDrawing = false) (hM : s.isManipulating = true)
    (hH : s.activeHandle = some "move")
    (h30w : minSize ≤ s.cropRect.width) (hw : s.cropRect.width ≤ cw)
    (h30h : minSize ≤ s.cropRect.height) (hh : s.cropRect.height ≤ ch) :
    (onDrawOrManipulateMove cw ch p s).cropRect.width = s.cropRect.width ∧
    (onDrawOrManipulateMove cw ch p s).cropRect.height = s.cropRect.height := by
  have hroute := move_rect_routing cw ch p s "move" hD hM hH
  rw [if_pos rfl] at hroute
  set mr := moveHandleRect cw ch s.startCropRect s.cropRect
    (p.1 - s.startPointer.1) (p.2 - s.startPointer.2) with hmr
  have hmw : mr.width = s.cropRect.width := rfl
  have hmh : mr.height = s.cropRect.height := rfl
  have h0x : 0 ≤ mr.x := le_max_left 0 _
  have h0y : 0 ≤ mr.y := le_max_left 0 _
  have hbx : mr.x ≤ cw - s.cropRect.width :=
    max_le (by linarith) (min_le_right _ _)
  have hby : mr.y ≤ ch - s.cropRect.height :=
    max_le (by linarith) (min_le_right _ _)
  have hfix : constrainCropBox cw ch mr = mr :=
    constrain_fixed cw ch mr h0x h0y
      (by rw [hmw]; linarith) (by rw [hmh]; linarith)
      (by rw [hmw]; exact h30w) (by rw [hmh]; exact h30h)
  rw [hroute]
  cases hC : s.isCropDefined
  · simp [hC, hmw, hmh]
  · simp [hC, hfix, hmw, hmh]

/-- Witness for `move_preserves_size` at the same concrete move session. -/
theorem move_preserves_size_witness :
    (onDrawOrManipulateMove 200 200 (300, 0) moveExampleState).cropRect.width = 50 ∧
    (onDrawOrManipulateMove 200 200 (300, 0) moveExampleState).cropRect.height = 50 := by
  have h := move_preserves_size 200 200 (300, 0) moveExampleState rfl rfl rfl
    (by norm_num [moveExampleState, minSize]) (by norm_num [moveExampleState])
    (by norm_num [moveExampleState, minSize]) (by norm_num [moveExampleState])
  exact ⟨by rw [h.1]; rfl, by rw [h.2]; rfl⟩

/-- C4: the per-handle delta rules.  With `a` the anchor-region snapshot and
`r` the current rectangle: a handle containing `e` sets
`width = a.width + dx`; containing `w` sets `width = a.width − dx` and
`x = a.x + dx`; containing `s` sets `height = a.height + dy`; containing `n`
sets `height = a.height − dy` and `y = a.y + dy`; corner handles combine the
two single-axis rules independently.  The deltas are applied to the anchor
snapshot `a`, never compounded from the evolving rectangle.  Finally, resize
via handle `nw` with anchor region `{x:10, y:10, w:50, h:50}` and delta
`dx = −10, dy = −10` yields `{x:0, y:0, w:60, h:60}` through the full
pointer-move handler. -/
theorem resize_handle_rules (a r : Rect) (dx dy : ℚ) :
    resizeHandleRect "e" a r dx dy = { r with width := a.width + dx } ∧
    resizeHandleRect "w" a r dx dy
      = { r with width := a.width - dx, x := a.x + dx } ∧
    resizeHandleRect "s" a r dx dy = { r with height := a.height + dy } ∧
    resizeHandleRect "n" a r dx dy
      = { r with height := a.height - dy, y := a.y + dy } ∧
    resizeHandleRect "ne" a r dx dy
      = { r with width := a.width + dx, height := a.height - dy, y := a.y + dy } ∧
    resizeHandleRect "nw" a r dx dy
      = { r with width := a.width - dx, x := a.x + dx,
                 height := a.height - dy, y := a.y + dy } ∧
    resizeHandleRect "se" a r dx dy
      = { r with width := a.width + dx, height := a.height + dy } ∧
    resizeHandleRect "sw" a r dx dy
      = { r with width := a.width - dx, x := a.x + dx, height := a.height + dy } ∧
    (onDrawOrManipulateMove 200 200 (90, 90) nwExampleState).cropRect
      = ⟨0, 0, 60, 60⟩ := by
  refine ⟨rfl, rfl, rfl, rfl, rfl, rfl, rfl, rfl, ?_⟩
  have hne : (("nw" : String) = "move") = False := by decide
  have hnw : ∀ (a r : Rect) (dx dy : ℚ), resizeHandleRect "nw" a r dx dy
      = { r with width := a.width - dx, x := a.x + dx,
                 height := a.height - dy, y := a.y + dy } :=
    fun a r dx dy => rfl
  norm_num [onDrawOrManipulateMove, nwExampleState, hnw,
    constrainCropBox, minSize, max_def, Rect.mk.injEq, hne]

/-- C9 counterexample: the handle identity `"ew"` is not `"move"` and matches
no known compass direction, yet the manipulation pointer-move is not a no-op
on the region's geometry: the `e` and `w` character rules both fire. -/
theorem malformed_compass_chars_not_noop :
    (("ew" : String) ∉
      (["move", "n", "s", "e", "w", "ne", "nw", "se", "sw"] : List String)) ∧
    ewExampleState.activeHandle = some "ew" ∧
    (onDrawOrManipulateMove 200 200 (140, 100) ewExampleState).cropRect
      ≠ ewExampleState.cropRect := by
  refine ⟨by decide, rfl, ?_⟩
  have hval : (onDrawOrManipulateMove 200 200 (140, 100) ewExampleState).cropRect
      = ⟨50, 10, 30, 50⟩ := by
    have hne : (("ew" : String) = "move") = False := by decide
    have hew : ∀ (a r : Rect) (dx dy : ℚ), resizeHandleRect "ew" a r dx dy
        = { r with width := a.width - dx, x := a.x + dx } :=
      fun a r dx dy => rfl
    norm_num [onDrawOrManipulateMove, ewExampleState, hew,
      constrainCropBox, minSize, max_def, Rect.mk.injEq, hne]
  rw [hval]
  norm_num [ewExampleState, Rect.mk.injEq]

/-- C9 (amended): a manipulation pointer-move whose active handle identity is
not `"move"` and contains none of the compass characters `e`, `w`, `s`, `n`
is a no-op: given the region already satisfies the constraints (so the
re-applied constraint pass fixes it), the state is left entirely unchanged —
and in particular no fault occurs, the handler being total. -/
theorem no_compass_handle_noop (cw ch : ℚ) (p : ℚ × ℚ) (s : CropState)
    (h : String)
    (hD : s.isDrawing = false) (hM : s.isManipulating = true)
    (hH : s.activeHandle = some h)
    (hce : h.data.contains 'e' = false) (hcw : h.data.contains 'w' = false)
    (hcs : h.data.contains 's' = false) (hcn : h.data.contains 'n' = false)
    (hfix : constrainCropBox cw ch s.cropRect = s.cropRect) :
    onDrawOrManipulateMove cw ch p s = s := by
  obtain ⟨cr, ah, im, idr, icd, sp, scr, cbh, ml, wl⟩ := s
  dsimp only at hD hM hH hfix
  subst hD
  subst hM
  subst hH
  have hmv : h ≠ "move" := by
    intro hcontra
    rw [hcontra] at hce
    exact absurd hce (by decide)
  have hrr : resizeHandleRect h scr cr (p.1 - sp.1) (p.2 - sp.2) = cr := by
    have h1 : 'e' ∉ h.data := by simpa using hce
    have h2 : 'w' ∉ h.data := by simpa using hcw
    have h3 : 's' ∉ h.data := by simpa using hcs
    have h4 : 'n' ∉ h.data := by simpa using hcn
    simp [resizeHandleRect, h1, h2, h3, h4]
  cases icd <;> simp [onDrawOrManipulateMove, hmv, hrr, hfix]

/-- Witness for `no_compass_handle_noop`: the handle identity `"q"` leaves a
concrete constrained manipulation state unchanged. -/
theorem no_compass_handle_noop_witness :
    onDrawOrManipulateMove 200 200 (140, 100) qExampleState = qExampleState :=
  no_compass_handle_noop 200 200 (140, 100) qExampleState "q"
    rfl rfl rfl rfl rfl rfl rfl
    (constrain_fixed 200 200 qExampleState.cropRect
      (by norm_num [qExampleState]) (by norm_num [qExampleState])
      (by norm_num [qExampleState]) (by norm_num [qExampleState])
      (by norm_num [qExampleState, minSize]) (by norm_num [qExampleState, minSize]))

/-- C6: `commit` — `applyCropToCanvas` — is a no-op returning the source
surface unchanged when the region is not defined; when it is defined, it
produces an output surface whose pixel dimensions equal the region's size and
whose content at `(i, j)` equals exactly the source surface's pixel at the
region's origin plus `(i, j)`. -/
theorem commit_exact (s : CropState) (src : Surface) :
    (isCropped s = false → applyCropToCanvas s src = src) ∧
    (isCropped s = true →
      (applyCropToCanvas s src).width = s.cropRect.width ∧
      (applyCropToCanvas s src).height = s.cropRect.height ∧
      ∀ i j : ℚ, (applyCropToCanvas s src).pix i j
          = src.pix (s.cropRect.x + i) (s.cropRect.y + j)) := by
  constructor
  · intro h
    simp [applyCropToCanvas, h]
  · intro h
    refine ⟨?_, ?_, fun i j => ?_⟩ <;> simp [applyCropToCanvas, h]

/-- Witness for `commit_exact`: region `{x:0, y:0, w:40, h:40}` over a 100×100
source yields a 40×40 surface equal to the source's top-left 40×40 block. -/
theorem commit_exact_witness :
    isCropped crop40State = true ∧
    (applyCropToCanvas crop40State src100).width = 40 ∧
    (applyCropToCanvas crop40State src100).height = 40 ∧
    (applyCropToCanvas crop40State src100).pix 3 5 = src100.pix 3 5 := by
  have hc := (commit_exact crop40State src100).2 rfl
  refine ⟨rfl, ?_, ?_, ?_⟩
  · rw [hc.1]; rfl
  · rw [hc.2.1]; rfl
  · rw [hc.2.2 3 5]
    norm_num [crop40State]

/-- C7: For every on-screen point within the rendered surface box, the
projection round-trip `toDisplay (toSurface p) = p` holds exactly (hence
within any floating-point tolerance), where `toSurface` is
`getNativePointerPosition` — `(displayPoint − renderedOrigin) · scale⁻¹`
clamped into the surface — and `toDisplay` is the `updateStyle` placement
`renderedOrigin + surfacePoint · scale` re-expressed in client coordinates by
adding back the container origin. -/
theorem projection_roundtrip (cw chv rl rt cl ct rwd cx cy : ℚ)
    (hcw : 0 < cw) (hrwd : 0 < rwd)
    (hx1 : rl ≤ cx) (hx2 : cx ≤ rl + rwd)
    (hy1 : rt ≤ cy) (hy2 : cy ≤ rt + chv * (rwd / cw)) :
    cl + (updateStyle cw rl rt cl ct rwd
        ⟨(getNativePointerPosition cw chv rl rt rwd cx cy).1,
         (getNativePointerPosition cw chv rl rt rwd cx cy).2, 0, 0⟩).1 = cx ∧
    ct + (updateStyle cw rl rt cl ct rwd
        ⟨(getNativePointerPosition cw chv rl rt rwd cx cy).1,
         (getNativePointerPosition cw chv rl rt rwd cx cy).2, 0, 0⟩).2.1 = cy := by
  have hcw' : cw ≠ 0 := ne_of_gt hcw
  have hrwd' : rwd ≠ 0 := ne_of_gt hrwd
  have hsc : (0 : ℚ) ≤ cw / rwd := le_of_lt (div_pos hcw hrwd)
  have h0x : 0 ≤ (cx - rl) * (cw / rwd) := mul_nonneg (by linarith) hsc
  have hxcw : (cx - rl) * (cw / rwd) ≤ cw := by
    have h1 : (cx - rl) * (cw / rwd) ≤ rwd * (cw / rwd) :=
      mul_le_mul_of_nonneg_right (by linarith) hsc
    have h2 : rwd * (cw / rwd) = cw := by field_simp
    linarith [h1, h2.le, h2.ge]
  have h0y : 0 ≤ (cy - rt) * (cw / rwd) := mul_nonneg (by linarith) hsc
  have hych : (cy - rt) * (cw / rwd) ≤ chv := by
    have h1 : (cy - rt) * (cw / rwd) ≤ (chv * (rwd / cw)) * (cw / rwd) :=
      mul_le_mul_of_nonneg_right (by linarith) hsc
    have h2 : (chv * (rwd / cw)) * (cw / rwd) = chv := by field_simp
    linarith [h1, h2.le, h2.ge]
  have hget : getNativePointerPosition cw chv rl rt rwd cx cy
      = ((cx - rl) * (cw / rwd), (cy - rt) * (cw / rwd)) := by
    simp only [getNativePointerPosition]
    rw [min_eq_left hxcw, max_eq_right h0x, min_eq_left hych, max_eq_right h0y]
  rw [hget]
  unfold updateStyle
  constructor <;> field_simp

/-- Witness for `projection_roundtrip` at a concrete rendered box and
pointer. -/
theorem projection_roundtrip_witness :
    (0 : ℚ) + (updateStyle 100 10 20 0 0 200
        ⟨(getNativePointerPosition 100 50 10 20 200 110 60).1,
         (getNativePointerPosition 100 50 10 20 200 110 60).2, 0, 0⟩).1 = 110 ∧
    (0 : ℚ) + (updateStyle 100 10 20 0 0 200
        ⟨(getNativePointerPosition 100 50 10 20 200 110 60).1,
         (getNativePointerPosition 100 50 10 20 200 110 60).2, 0, 0⟩).2.1 = 60 :=
  projection_roundtrip 100 50 10 20 0 0 200 110 60
    (by norm_num) (by norm_num) (by norm_num) (by norm_num)
    (by norm_num) (by norm_num)

end QueryLens
